import Mathlib

/-! Verification of the geofencing and crime-aggregation core of the
SafePhone London repository.

Shallow embedding of the pure computational core of the repository:

* the Geofence Engine of `src/App.tsx` (`getDistance`, `checkGeofences`,
  the static `GEOFENCE_ZONES` list and the `currentZone` / `alertedZones`
  state), and
* the Crime Feed Normalizer of `src/lib/policeApi.ts` (the per-record
  transformation inside `fetchCrimeData` and the id-deduplication loop of
  `fetchCrimeDataForArea`) together with the statistics folds of
  `src/app/page.tsx`.

Conventions: JavaScript numbers are modelled as real numbers `ℝ` for the
geofence arithmetic and as `Option ℚ` for parsed coordinates, where `none`
stands for the IEEE `NaN` produced by `parseFloat` on non-numeric text.
JavaScript fields that may be absent at runtime are modelled as `Option`.
-/

namespace SafePhone

/-- JavaScript `Math.atan2 y x` (two-argument arctangent), as specified by
IEEE/ECMAScript for finite arguments: the angle of the point `(x, y)`. -/
noncomputable def atan2 (y x : ℝ) : ℝ :=
  if 0 < x then Real.arctan (y / x)
  else if x < 0 then
    (if 0 ≤ y then Real.arctan (y / x) + Real.pi else Real.arctan (y / x) - Real.pi)
  else
    (if 0 < y then Real.pi / 2 else if y < 0 then -(Real.pi / 2) else 0)

/-- Function `getDistance` from `src/App.tsx` lines 77–89: haversine distance in
meters between `(lat1, lon1)` and `(lat2, lon2)` on a sphere of radius
6 371 000 m. -/
noncomputable def getDistance (lat1 lon1 lat2 lon2 : ℝ) : ℝ :=
  let R : ℝ := 6371e3
  let phi1 := lat1 * Real.pi / 180
  let phi2 := lat2 * Real.pi / 180
  let dphi := (lat2 - lat1) * Real.pi / 180
  let dlam := (lon2 - lon1) * Real.pi / 180
  let a := Real.sin (dphi / 2) * Real.sin (dphi / 2) +
           Real.cos phi1 * Real.cos phi2 * (Real.sin (dlam / 2) * Real.sin (dlam / 2))
  let c := 2 * atan2 (Real.sqrt a) (Real.sqrt (1 - a))
  R * c

/-- A geofence zone from `src/App.tsx`: `center` is `[longitude, latitude]`
exactly as in the source array, `radius` in meters. -/
structure Zone where
  name : String
  center : ℝ × ℝ
  radius : ℝ

/-- Constant `GEOFENCE_ZONES` from `src/App.tsx` lines 28–39. -/
noncomputable def GEOFENCE_ZONES : List Zone :=
  [ ⟨"Westminster", (-0.1357, 51.4975), 1000⟩,
    ⟨"Camden Town", (-0.1426, 51.5394), 800⟩,
    ⟨"Shoreditch", (-0.0777, 51.5267), 700⟩,
    ⟨"Oxford Street", (-0.1413, 51.5152), 600⟩,
    ⟨"King\x27s Cross", (-0.1246, 51.5308), 750⟩,
    ⟨"Brixton", (-0.1146, 51.4613), 800⟩,
    ⟨"Stratford", (-0.0023, 51.5415), 900⟩,
    ⟨"Elephant & Castle", (-0.0988, 51.4943), 700⟩,
    ⟨"Tottenham Court Road", (-0.1307, 51.5165), 500⟩,
    ⟨"Liverpool Street", (-0.0822, 51.5178), 600⟩ ]

/-- The mutable state of the Geofence Engine in `src/App.tsx`:
`currentZone` (React state, line 73) and `alertedZones` (a `Set<string>`
ref, line 74), modelled as a list without duplicates. -/
structure GeofenceState where
  currentZone : Option String
  alertedZones : List String
deriving DecidableEq

/-- The initial engine state: no current zone, nothing alerted yet. -/
def initState : GeofenceState := ⟨none, []⟩

open Classical

/-- The zone-selection loop of `checkGeofences` (`src/App.tsx` lines
96–103): walk the zone list in configuration order and return the first
zone whose haversine distance from `(lat, lon)` to its center is at most
its radius (`break` on first match), or `none` if no zone matches. -/
noncomputable def selectZone (lat lon : ℝ) : List Zone → Option Zone
  | [] => none
  | z :: zs =>
      if getDistance lat lon z.center.2 z.center.1 ≤ z.radius then some z
      else selectZone lat lon zs

/-- Function `checkGeofences` from `src/App.tsx` lines 92–117: select the first
matching zone, set `currentZone` accordingly, and when the selected zone
has not been alerted this session, add it to `alertedZones` and emit one
entered-zone event (the source's alert banner / vibration). The returned
list is the list of events emitted by this call. -/
noncomputable def checkGeofences (lat lon : ℝ) (s : GeofenceState) :
    GeofenceState × List String :=
  match selectZone lat lon GEOFENCE_ZONES with
  | none => (⟨none, s.alertedZones⟩, [])
  | some z =>
      if z.name ∈ s.alertedZones then (⟨some z.name, s.alertedZones⟩, [])
      else (⟨some z.name, z.name :: s.alertedZones⟩, [z.name])

/-- A session: feed a list of position samples `(lat, lon)` through
`checkGeofences` one at a time, collecting all emitted events in order. -/
noncomputable def runSession (samples : List (ℝ × ℝ)) (s : GeofenceState) :
    GeofenceState × List String :=
  match samples with
  | [] => (s, [])
  | p :: ps =>
      let r := checkGeofences p.1 p.2 s
      let rest := runSession ps r.1
      (rest.1, r.2 ++ rest.2)

/-! Section: the Crime Feed Normalizer (`src/lib/policeApi.ts`). -/

/-- The `street` object of a raw Police API record. -/
structure StreetRef where
  id : Int
  name : String
deriving DecidableEq

/-- The `location` object of a raw Police API record; latitude and longitude
arrive as strings. -/
structure CrimeLocation where
  latitude : String
  longitude : String
  street : StreetRef
deriving DecidableEq

/-- The `outcome_status` object of a raw Police API record. -/
structure OutcomeStatus where
  category : String
  date : String
deriving DecidableEq

/-- Interface `PoliceCrime` from `src/lib/policeApi.ts` lines 4–24. The TypeScript
interface declares `id : number` and `persistent_id : string`; they are
modelled as `Option` so that a JavaScript record in which the field is
absent at runtime (`undefined`) is representable, which is what the
`crime.persistent_id || ...` fallback in the source exists to handle. -/
structure PoliceCrime where
  id : Option Int
  category : String
  location : CrimeLocation
  outcome_status : Option OutcomeStatus
  persistent_id : Option String
  month : String
deriving DecidableEq

/-- Interface `CrimeData` from `src/lib/policeApi.ts` lines 26–34. `lat`/`lng` hold
the result of `parseFloat`; `none` stands for IEEE `NaN` (non-numeric
text), numeric text is held exactly as a rational. -/
structure CrimeData where
  id : String
  category : String
  lat : Option ℚ
  lng : Option ℚ
  street : String
  month : String
  outcomeStatus : Option String
deriving DecidableEq

/-- Longest leading run of decimal digits of a character list, and the
rest. -/
def takeDigits : List Char → List Char × List Char
  | [] => ([], [])
  | c :: cs =>
      if c.isDigit then
        let r := takeDigits cs
        (c :: r.1, r.2)
      else ([], c :: cs)

/-- Numeric value of a digit string. -/
def digitsToNat (ds : List Char) : ℕ :=
  ds.foldl (fun acc c => 10 * acc + (c.toNat - Char.toNat (Char.ofNat 48))) 0

/-- JavaScript `parseFloat` on decimal literals: skip leading spaces, read
an optional sign, integer digits, an optional fraction and an optional
exponent, ignore any trailing text, and return `none` (`NaN`) when no
digit was consumed. The exact rational value stands for the IEEE double
`parseFloat` would produce. -/
def jsParseFloat (s : String) : Option ℚ :=
  let cs0 := s.data.dropWhile (fun c => c = ' ')
  let signAndRest : Bool × List Char :=
    match cs0 with
    | '-' :: rest => (true, rest)
    | '+' :: rest => (false, rest)
    | _ => (false, cs0)
  let ipRest := takeDigits signAndRest.2
  let fpRest : List Char × List Char :=
    match ipRest.2 with
    | '.' :: rest => takeDigits rest
    | _ => ([], ipRest.2)
  if ipRest.1.isEmpty ∧ fpRest.1.isEmpty then none
  else
    let mag : ℚ :=
      (digitsToNat ipRest.1 : ℚ) + (digitsToNat fpRest.1 : ℚ) / (10 ^ fpRest.1.length)
    let expScaled : ℚ :=
      match fpRest.2 with
      | 'e' :: '-' :: rest =>
          let e := takeDigits rest
          if e.1.isEmpty then mag else mag / 10 ^ digitsToNat e.1
      | 'e' :: '+' :: rest =>
          let e := takeDigits rest
          if e.1.isEmpty then mag else mag * 10 ^ digitsToNat e.1
      | 'e' :: rest =>
          let e := takeDigits rest
          if e.1.isEmpty then mag else mag * 10 ^ digitsToNat e.1
      | _ => mag
    some (if signAndRest.1 then -expScaled else expScaled)

/-- JavaScript `a || b` for an optional string `a`: the fallback `b` is
taken when `a` is absent (`undefined`) or empty (falsy). -/
def jsOrString (a : Option String) (b : String) : String :=
  match a with
  | some s => if s = "" then b else s
  | none => b

/-- JavaScript template interpolation of a possibly-absent number, as in
`` `${crime.id}` ``: an absent field renders as the string
`"undefined"`. -/
def jsNumToString (i : Option Int) : String :=
  match i with
  | some n => toString n
  | none => "undefined"

/-- The per-record transformation inside `fetchCrimeData`
(`src/lib/policeApi.ts` lines 143–151):
`id: crime.persistent_id || String(crime.id)`, `parseFloat` on both
coordinates, `outcomeStatus: crime.outcome_status?.category || null`. -/
def transformCrime (crime : PoliceCrime) : CrimeData :=
  { id := jsOrString crime.persistent_id (jsNumToString crime.id),
    category := crime.category,
    lat := jsParseFloat crime.location.latitude,
    lng := jsParseFloat crime.location.longitude,
    street := crime.location.street.name,
    month := crime.month,
    outcomeStatus :=
      match crime.outcome_status with
      | some o => if o.category = "" then none else some o.category
      | none => none }

/-- The pure core of `fetchCrimeData` (`src/lib/policeApi.ts` lines
143–153): `data.map(...)` over the fetched records. -/
def fetchCrimeData (data : List PoliceCrime) : List CrimeData :=
  data.map transformCrime

/-- The `forEach` deduplication loop of `fetchCrimeDataForArea`
(`src/lib/policeApi.ts` lines 199–204): push a record only when its id has
not been seen; `seen` is the `seenIds` set. -/
def dedupeSeen : List CrimeData → List String → List CrimeData
  | [], _ => []
  | c :: cs, seen =>
      if c.id ∈ seen then dedupeSeen cs seen
      else c :: dedupeSeen cs (c.id :: seen)

/-- The pure core of `fetchCrimeDataForArea` (`src/lib/policeApi.ts` lines
187–212): deduplicate the fetched records by id, starting from an empty
`seenIds` set, keeping first occurrences in order. -/
def fetchCrimeDataForArea (centerCrimes : List CrimeData) : List CrimeData :=
  dedupeSeen centerCrimes []

/-! Section: the statistics folds (`src/app/page.tsx`). -/

/-- A user incident report as read from the document store
(`src/app/page.tsx`); only the fields the stats fold reads are modelled
(the timestamp is opaque to the fold). -/
structure Incident where
  id : String
  type : String
  lat : ℚ
  lng : ℚ
  description : String
deriving DecidableEq

/-- User-report statistics (`stats` state of `src/app/page.tsx`). -/
structure Stats where
  total : ℕ
  theft : ℕ
  suspicious : ℕ
  safe : ℕ
deriving DecidableEq

/-- The counter step of the incident `forEach` in `src/app/page.tsx`
(lines 46–61): an `else if` chain on the record's `type`. -/
def incidentStep (acc : ℕ × ℕ × ℕ) (d : Incident) : ℕ × ℕ × ℕ :=
  if d.type = "theft" then (acc.1 + 1, acc.2.1, acc.2.2)
  else if d.type = "suspicious" then (acc.1, acc.2.1 + 1, acc.2.2)
  else if d.type = "safe" then (acc.1, acc.2.1, acc.2.2 + 1)
  else acc

/-- The incident stats fold of `src/app/page.tsx` lines 46–69: count
theft / suspicious / safe reports while iterating, then set
`total := incidentData.length`. -/
def incidentStats (docs : List Incident) : Stats :=
  let c := docs.foldl incidentStep (0, 0, 0)
  ⟨docs.length, c.1, c.2.1, c.2.2⟩

/-- Police-record statistics (`policeStats` state of
`src/app/page.tsx`). -/
structure PoliceStats where
  total : ℕ
  theftFromPerson : ℕ
  robbery : ℕ
  otherTheft : ℕ
deriving DecidableEq

/-- The police stats computation of `loadPoliceCrimeData`
(`src/app/page.tsx` lines 227–237): three category filters and
`total := crimes.length`. -/
def policeStatsOf (crimes : List CrimeData) : PoliceStats :=
  ⟨crimes.length,
   (crimes.filter (fun c => c.category == "theft-from-the-person")).length,
   (crimes.filter (fun c => c.category == "robbery")).length,
   (crimes.filter (fun c => c.category == "other-theft")).length⟩

/-! Section: concrete records used in counterexamples and witnesses. -/

/-- A normalized crime record with the given id and category and no
further distinguishing data (coordinates `none`, i.e. `NaN`). -/
def mkCrime (i : String) (cat : String) : CrimeData :=
  ⟨i, cat, none, none, "High St", "2025-01", none⟩

/-- First batch of the deduplication example: 10 records with ids
`a1`–`a7` and the shared ids `s1`–`s3`. -/
def batchA : List CrimeData :=
  [mkCrime "a1" "robbery", mkCrime "a2" "robbery", mkCrime "a3" "robbery",
   mkCrime "a4" "robbery", mkCrime "a5" "robbery", mkCrime "a6" "robbery",
   mkCrime "a7" "robbery", mkCrime "s1" "robbery", mkCrime "s2" "robbery",
   mkCrime "s3" "robbery"]

/-- Second batch of the deduplication example: 10 records sharing ids
`s1`–`s3` with `batchA` plus fresh ids `b1`–`b7`. -/
def batchB : List CrimeData :=
  [mkCrime "s1" "burglary", mkCrime "s2" "burglary", mkCrime "s3" "burglary",
   mkCrime "b1" "burglary", mkCrime "b2" "burglary", mkCrime "b3" "burglary",
   mkCrime "b4" "burglary", mkCrime "b5" "burglary", mkCrime "b6" "burglary",
   mkCrime "b7" "burglary"]

/-- A raw record whose latitude text is non-numeric. -/
def badLatRecord : PoliceCrime :=
  ⟨some 3, "burglary", ⟨"not-a-number", "-0.1", ⟨30, "C St"⟩⟩, none, none, "2025-01"⟩

/-- A batch of 5 raw records of which exactly one (`badLatRecord`) has a
non-numeric latitude. -/
def fiveRecordBatch : List PoliceCrime :=
  [⟨some 1, "robbery", ⟨"51.50", "-0.12", ⟨10, "A St"⟩⟩, none, none, "2025-01"⟩,
   ⟨some 2, "drugs", ⟨"51.51", "-0.13", ⟨20, "B St"⟩⟩, none, none, "2025-01"⟩,
   badLatRecord,
   ⟨some 4, "robbery", ⟨"51.52", "-0.14", ⟨40, "D St"⟩⟩, none, none, "2025-01"⟩,
   ⟨some 5, "shoplifting", ⟨"51.53", "-0.15", ⟨50, "E St"⟩⟩, none, none, "2025-01"⟩]

/-- A raw record carrying neither a persistent nor a numeric identifier. -/
def noIdRecord1 : PoliceCrime :=
  ⟨none, "burglary", ⟨"10.0", "20.0", ⟨1, "A St"⟩⟩, none, none, "2025-01"⟩

/-- A second identifier-less raw record differing from `noIdRecord1` in
category, location and period. -/
def noIdRecord2 : PoliceCrime :=
  ⟨none, "drugs", ⟨"52.0", "-1.0", ⟨2, "B St"⟩⟩, none, none, "2024-06"⟩

/-- A raw record carrying a non-empty persistent identifier. -/
def persistentIdRecord : PoliceCrime :=
  ⟨some 9, "robbery", ⟨"51.50", "-0.12", ⟨9, "F St"⟩⟩, none, some "uuid-1", "2025-01"⟩

/-- A single user report whose `type` is none of the three counted
categories. -/
def vandalismOnly : List Incident :=
  [⟨"i1", "vandalism", 0, 0, "smashed window"⟩]

/-- The first zone of `GEOFENCE_ZONES`. -/
noncomputable def westminsterZone : Zone := ⟨"Westminster", (-0.1357, 51.4975), 1000⟩

/-! Section: haversine distance lemmas. -/

theorem atan2_zero_one : atan2 0 1 = 0 := by
  unfold atan2
  rw [if_pos (by norm_num : (0:ℝ) < 1)]
  simp

theorem getDistance_self (lat lon : ℝ) : getDistance lat lon lat lon = 0 := by
  simp [getDistance, atan2_zero_one]

theorem sin_half_sq_swap (x y : ℝ) :
    Real.sin ((x - y) * Real.pi / 180 / 2) * Real.sin ((x - y) * Real.pi / 180 / 2) =
      Real.sin ((y - x) * Real.pi / 180 / 2) * Real.sin ((y - x) * Real.pi / 180 / 2) := by
  rw [show (x - y) * Real.pi / 180 / 2 = -((y - x) * Real.pi / 180 / 2) by ring, Real.sin_neg]
  ring

theorem getDistance_comm (lat1 lon1 lat2 lon2 : ℝ) :
    getDistance lat1 lon1 lat2 lon2 = getDistance lat2 lon2 lat1 lon1 := by
  simp only [getDistance]
  rw [sin_half_sq_swap lat2 lat1, sin_half_sq_swap lon2 lon1,
    mul_comm (Real.cos (lat1 * Real.pi / 180)) (Real.cos (lat2 * Real.pi / 180))]

/-- C8: `getDistance` implements the haversine formula with R = 6 371 000
meters; it is symmetric in its two coordinate pairs, vanishes on identical
pairs, and consequently a position exactly at a zone's center lies inside
that zone for every positive radius. -/
theorem c8_haversine_distance :
    (∀ lat1 lon1 lat2 lon2 : ℝ,
        getDistance lat1 lon1 lat2 lon2 =
          2 * 6371000 *
            atan2
              (Real.sqrt (Real.sin ((lat2 - lat1) * Real.pi / 180 / 2) ^ 2 +
                Real.cos (lat1 * Real.pi / 180) * Real.cos (lat2 * Real.pi / 180) *
                  Real.sin ((lon2 - lon1) * Real.pi / 180 / 2) ^ 2))
              (Real.sqrt (1 - (Real.sin ((lat2 - lat1) * Real.pi / 180 / 2) ^ 2 +
                Real.cos (lat1 * Real.pi / 180) * Real.cos (lat2 * Real.pi / 180) *
                  Real.sin ((lon2 - lon1) * Real.pi / 180 / 2) ^ 2)))) ∧
    (∀ lat1 lon1 lat2 lon2 : ℝ,
        getDistance lat1 lon1 lat2 lon2 = getDistance lat2 lon2 lat1 lon1) ∧
    (∀ lat lon : ℝ, getDistance lat lon lat lon = 0) ∧
    (∀ z : Zone, 0 < z.radius →
        getDistance z.center.2 z.center.1 z.center.2 z.center.1 ≤ z.radius) := by
  refine ⟨?_, getDistance_comm, getDistance_self, ?_⟩
  · intro lat1 lon1 lat2 lon2
    simp only [getDistance]
    rw [pow_two, pow_two, show (6371e3 : ℝ) = 6371000 by norm_num]
    ring
  · intro z hz
    rw [getDistance_self]
    exact le_of_lt hz

/-- Witness for C8: the position exactly at the Westminster center is at
distance at most 1000 m from it. -/
theorem c8_haversine_distance_witness :
    getDistance 51.4975 (-0.1357) 51.4975 (-0.1357) ≤ 1000 :=
  c8_haversine_distance.2.2.2 ⟨"Westminster", (-0.1357, 51.4975), 1000⟩ (by norm_num)

/-! Section: zone-selection lemmas. -/

theorem selectZone_nil (lat lon : ℝ) : selectZone lat lon [] = none := rfl

theorem selectZone_cons (lat lon : ℝ) (z : Zone) (zs : List Zone) :
    selectZone lat lon (z :: zs) =
      if getDistance lat lon z.center.2 z.center.1 ≤ z.radius then some z
      else selectZone lat lon zs := rfl

theorem selectZone_eq_none_iff (lat lon : ℝ) (zones : List Zone) :
    selectZone lat lon zones = none ↔
      ∀ z ∈ zones, ¬ getDistance lat lon z.center.2 z.center.1 ≤ z.radius := by
  induction zones with
  | nil => simp [selectZone_nil]
  | cons z zs ih =>
    by_cases h : getDistance lat lon z.center.2 z.center.1 ≤ z.radius
    · rw [selectZone_cons, if_pos h]
      constructor
      · intro hc; exact absurd hc (by simp)
      · intro hall; exact absurd h (hall z (by simp))
    · rw [selectZone_cons, if_neg h, ih]
      constructor
      · intro hall y hy
        rcases List.mem_cons.mp hy with rfl | hy
        · exact h
        · exact hall y hy
      · intro hall y hy
        exact hall y (List.mem_cons_of_mem z hy)

theorem selectZone_eq_some (lat lon : ℝ) (zones : List Zone) (z : Zone)
    (h : selectZone lat lon zones = some z) :
    ∃ pre post, zones = pre ++ z :: post ∧
      getDistance lat lon z.center.2 z.center.1 ≤ z.radius ∧
      ∀ y ∈ pre, ¬ getDistance lat lon y.center.2 y.center.1 ≤ y.radius := by
  induction zones with
  | nil => simp [selectZone_nil] at h
  | cons w ws ih =>
    by_cases hw : getDistance lat lon w.center.2 w.center.1 ≤ w.radius
    · rw [selectZone_cons, if_pos hw, Option.some_inj] at h
      exact ⟨[], ws, by simp [h], h ▸ hw, by simp⟩
    · rw [selectZone_cons, if_neg hw] at h
      obtain ⟨pre, post, hzs, hz, hpre⟩ := ih h
      refine ⟨w :: pre, post, by simp [hzs], hz, ?_⟩
      intro y hy
      rcases List.mem_cons.mp hy with hy | hy
      · exact hy ▸ hw
      · exact hpre y hy

theorem selectZone_mem_and_dist (lat lon : ℝ) (zones : List Zone) (z : Zone)
    (h : selectZone lat lon zones = some z) :
    z ∈ zones ∧ getDistance lat lon z.center.2 z.center.1 ≤ z.radius := by
  obtain ⟨pre, post, hzs, hz, -⟩ := selectZone_eq_some lat lon zones z h
  exact ⟨by rw [hzs]; simp, hz⟩

theorem selectZone_westminster_center :
    selectZone 51.4975 (-0.1357) GEOFENCE_ZONES = some westminsterZone := by
  have h0 : getDistance 51.4975 (-0.1357) (51.4975 : ℝ) (-0.1357) ≤ 1000 := by
    rw [getDistance_self]; norm_num
  simp [GEOFENCE_ZONES, selectZone_cons, westminsterZone, h0]

/-- C2: the first zone (in configuration order) whose center is within
radius of the sample is selected; `none` is selected exactly when no zone
contains the sample; `currentZone` is set to the selected zone's name (or
`none`). -/
theorem c2_first_match_selection :
    ∀ lat lon : ℝ,
      (∀ (zones : List Zone) (z : Zone), selectZone lat lon zones = some z →
        ∃ pre post, zones = pre ++ z :: post ∧
          getDistance lat lon z.center.2 z.center.1 ≤ z.radius ∧
          ∀ y ∈ pre, ¬ getDistance lat lon y.center.2 y.center.1 ≤ y.radius) ∧
      (∀ zones : List Zone, selectZone lat lon zones = none ↔
        ∀ z ∈ zones, ¬ getDistance lat lon z.center.2 z.center.1 ≤ z.radius) ∧
      (∀ s : GeofenceState,
        (checkGeofences lat lon s).1.currentZone =
          (selectZone lat lon GEOFENCE_ZONES).map Zone.name) := by
  intro lat lon
  refine ⟨fun zones z h => selectZone_eq_some lat lon zones z h,
    fun zones => selectZone_eq_none_iff lat lon zones, ?_⟩
  intro s
  cases h : selectZone lat lon GEOFENCE_ZONES with
  | none => simp [checkGeofences, h]
  | some z =>
    by_cases hz : z.name ∈ s.alertedZones <;> simp [checkGeofences, h, hz]

/-- Witness for C2 at the Westminster center: the hypothesis
`selectZone … = some westminsterZone` is discharged concretely. -/
theorem c2_first_match_selection_witness :
    ∃ pre post, GEOFENCE_ZONES = pre ++ westminsterZone :: post ∧
      getDistance 51.4975 (-0.1357) westminsterZone.center.2 westminsterZone.center.1 ≤
        westminsterZone.radius ∧
      ∀ y ∈ pre, ¬ getDistance 51.4975 (-0.1357) y.center.2 y.center.1 ≤ y.radius :=
  (c2_first_match_selection 51.4975 (-0.1357)).1 GEOFENCE_ZONES westminsterZone
    selectZone_westminster_center

/-! Section: alert-state lemmas. -/

theorem checkGeofences_alerted_mono (lat lon : ℝ) (s : GeofenceState) :
    ∀ x ∈ s.alertedZones, x ∈ (checkGeofences lat lon s).1.alertedZones := by
  intro x hx
  cases h : selectZone lat lon GEOFENCE_ZONES with
  | none => simpa [checkGeofences, h] using hx
  | some z =>
    by_cases hz : z.name ∈ s.alertedZones
    · simpa [checkGeofences, h, hz] using hx
    · simp [checkGeofences, h, hz]
      exact Or.inr hx

theorem checkGeofences_events_spec (lat lon : ℝ) (s : GeofenceState) :
    ∀ e ∈ (checkGeofences lat lon s).2,
      e ∉ s.alertedZones ∧ e ∈ (checkGeofences lat lon s).1.alertedZones := by
  intro e he
  cases h : selectZone lat lon GEOFENCE_ZONES with
  | none => simp [checkGeofences, h] at he
  | some z =>
    by_cases hz : z.name ∈ s.alertedZones
    · simp [checkGeofences, h, hz] at he
    · simp [checkGeofences, h, hz] at he ⊢
      subst he
      exact ⟨hz, Or.inl rfl⟩

theorem checkGeofences_events_nodup (lat lon : ℝ) (s : GeofenceState) :
    ((checkGeofences lat lon s).2).Nodup := by
  cases h : selectZone lat lon GEOFENCE_ZONES with
  | none => simp [checkGeofences, h]
  | some z =>
    by_cases hz : z.name ∈ s.alertedZones <;> simp [checkGeofences, h, hz]

theorem runSession_nil (s : GeofenceState) : runSession [] s = (s, []) := rfl

theorem runSession_cons (p : ℝ × ℝ) (ps : List (ℝ × ℝ)) (s : GeofenceState) :
    runSession (p :: ps) s =
      ((runSession ps (checkGeofences p.1 p.2 s).1).1,
        (checkGeofences p.1 p.2 s).2 ++ (runSession ps (checkGeofences p.1 p.2 s).1).2) :=
  rfl

theorem runSession_events_fresh :
    ∀ (samples : List (ℝ × ℝ)) (s : GeofenceState),
      ((runSession samples s).2).Nodup ∧
      ∀ e ∈ (runSession samples s).2, e ∉ s.alertedZones := by
  intro samples
  induction samples with
  | nil => intro s; simp [runSession_nil]
  | cons p ps ih =>
    intro s
    rw [runSession_cons]
    constructor
    · rw [List.nodup_append]
      refine ⟨checkGeofences_events_nodup p.1 p.2 s, (ih _).1, ?_⟩
      intro e he he'
      exact (ih _).2 e he' ((checkGeofences_events_spec p.1 p.2 s e he).2)
    · intro e he
      rcases List.mem_append.mp he with he | he
      · exact (checkGeofences_events_spec p.1 p.2 s e he).1
      · intro hs
        exact (ih _).2 e he (checkGeofences_alerted_mono p.1 p.2 s e hs)

/-- C1: an entered-zone event fires on a call exactly when the selected
zone is non-`none` and not yet alerted; on emission the name is recorded;
a second identical sample emits nothing; and over any session started from
the empty alert state no zone name is ever emitted twice. -/
theorem c1_alert_once :
    ∀ (lat lon : ℝ) (s : GeofenceState),
      ((checkGeofences lat lon s).2 ≠ [] ↔
        ∃ z, selectZone lat lon GEOFENCE_ZONES = some z ∧ z.name ∉ s.alertedZones) ∧
      (∀ z, selectZone lat lon GEOFENCE_ZONES = some z → z.name ∉ s.alertedZones →
        (checkGeofences lat lon s).2 = [z.name] ∧
        (checkGeofences lat lon s).1.alertedZones = z.name :: s.alertedZones) ∧
      ((checkGeofences lat lon ((checkGeofences lat lon s).1)).2 = []) ∧
      (∀ samples : List (ℝ × ℝ), ((runSession samples initState).2).Nodup) := by
  intro lat lon s
  refine ⟨?_, ?_, ?_, fun samples => (runSession_events_fresh samples initState).1⟩
  · cases h : selectZone lat lon GEOFENCE_ZONES with
    | none => simp [checkGeofences, h]
    | some z =>
      by_cases hz : z.name ∈ s.alertedZones <;> simp [checkGeofences, h, hz]
  · intro z h hz
    simp [checkGeofences, h, hz]
  · cases h : selectZone lat lon GEOFENCE_ZONES with
    | none => simp [checkGeofences, h]
    | some z =>
      by_cases hz : z.name ∈ s.alertedZones
      · simp [checkGeofences, h, hz]
      · simp [checkGeofences, h, hz]

/-- Witness for C1: the first sample at the Westminster center emits
exactly one event and records the zone. -/
theorem c1_alert_once_witness :
    (checkGeofences 51.4975 (-0.1357) initState).2 = ["Westminster"] ∧
    (checkGeofences 51.4975 (-0.1357) initState).1.alertedZones = ["Westminster"] :=
  (c1_alert_once 51.4975 (-0.1357) initState).2.1 westminsterZone
    selectZone_westminster_center (by simp [westminsterZone, initState])

/-! Section: session invariants. -/

theorem checkGeofences_state_spec (lat lon : ℝ) (s : GeofenceState) :
    ((checkGeofences lat lon s).1.currentZone = none ∨
      ∃ z ∈ GEOFENCE_ZONES, (checkGeofences lat lon s).1.currentZone = some z.name) ∧
    (∀ n ∈ (checkGeofences lat lon s).1.alertedZones,
      n ∈ s.alertedZones ∨ ∃ z ∈ GEOFENCE_ZONES, z.name = n ∧
        getDistance lat lon z.center.2 z.center.1 ≤ z.radius) := by
  cases h : selectZone lat lon GEOFENCE_ZONES with
  | none =>
    refine ⟨by simp [checkGeofences, h], ?_⟩
    intro n hn
    rw [show (checkGeofences lat lon s).1.alertedZones = s.alertedZones by
      simp [checkGeofences, h]] at hn
    exact Or.inl hn
  | some z =>
    obtain ⟨hmem, hdist⟩ := selectZone_mem_and_dist lat lon GEOFENCE_ZONES z h
    by_cases hz : z.name ∈ s.alertedZones
    · refine ⟨Or.inr ⟨z, hmem, by simp [checkGeofences, h, hz]⟩, ?_⟩
      intro n hn
      rw [show (checkGeofences lat lon s).1.alertedZones = s.alertedZones by
        simp [checkGeofences, h, hz]] at hn
      exact Or.inl hn
    · refine ⟨Or.inr ⟨z, hmem, by simp [checkGeofences, h, hz]⟩, ?_⟩
      intro n hn
      rw [show (checkGeofences lat lon s).1.alertedZones = z.name :: s.alertedZones by
        simp [checkGeofences, h, hz]] at hn
      rcases List.mem_cons.mp hn with rfl | hn
      · exact Or.inr ⟨z, hmem, rfl, hdist⟩
      · exact Or.inl hn

theorem runSession_state_spec :
    ∀ (samples : List (ℝ × ℝ)) (s : GeofenceState),
      ((runSession samples s).1.currentZone = s.currentZone ∨
        (runSession samples s).1.currentZone = none ∨
        ∃ z ∈ GEOFENCE_ZONES, (runSession samples s).1.currentZone = some z.name) ∧
      (∀ n ∈ (runSession samples s).1.alertedZones,
        n ∈ s.alertedZones ∨ ∃ z ∈ GEOFENCE_ZONES, z.name = n ∧
          ∃ p ∈ samples, getDistance p.1 p.2 z.center.2 z.center.1 ≤ z.radius) := by
  intro samples
  induction samples with
  | nil => intro s; simp [runSession_nil]
  | cons p ps ih =>
    intro s
    rw [runSession_cons]
    constructor
    · rcases (ih (checkGeofences p.1 p.2 s).1).1 with hc | hc | hc
      · rw [hc]
        rcases (checkGeofences_state_spec p.1 p.2 s).1 with hc' | ⟨z, hz, hc'⟩
        · exact Or.inr (Or.inl hc')
        · exact Or.inr (Or.inr ⟨z, hz, hc'⟩)
      · exact Or.inr (Or.inl hc)
      · exact Or.inr (Or.inr hc)
    · intro n hn
      rcases (ih (checkGeofences p.1 p.2 s).1).2 n hn with hn' | ⟨z, hz, hzn, q, hq, hd⟩
      · rcases (checkGeofences_state_spec p.1 p.2 s).2 n hn' with hs | ⟨z, hz, hzn, hd⟩
        · exact Or.inl hs
        · exact Or.inr ⟨z, hz, hzn, p, by simp, hd⟩
      · exact Or.inr ⟨z, hz, hzn, q, List.mem_cons_of_mem p hq, hd⟩

/-- C9: after any session started from the initial state, `currentZone` is
`none` or the name of a configured zone, and every alerted name belongs to
a configured zone that contained one of the evaluated positions. -/
theorem c9_state_invariant :
    ∀ samples : List (ℝ × ℝ),
      ((runSession samples initState).1.currentZone = none ∨
        ∃ z ∈ GEOFENCE_ZONES, (runSession samples initState).1.currentZone = some z.name) ∧
      (∀ n ∈ (runSession samples initState).1.alertedZones,
        ∃ z ∈ GEOFENCE_ZONES, z.name = n ∧
          ∃ p ∈ samples, getDistance p.1 p.2 z.center.2 z.center.1 ≤ z.radius) := by
  intro samples
  obtain ⟨h1, h2⟩ := runSession_state_spec samples initState
  constructor
  · rcases h1 with h | h | h
    · exact Or.inl h
    · exact Or.inl h
    · exact Or.inr h
  · intro n hn
    rcases h2 n hn with hs | hz
    · simp [initState] at hs
    · exact hz

/-- Witness for C9: a session consisting of one sample at the Westminster
center alerts "Westminster", which names a configured zone containing that
sample. -/
theorem c9_state_invariant_witness :
    ∃ z ∈ GEOFENCE_ZONES, z.name = "Westminster" ∧
      ∃ p ∈ [((51.4975 : ℝ), (-0.1357 : ℝ))],
        getDistance p.1 p.2 z.center.2 z.center.1 ≤ z.radius := by
  have hrun : (runSession [((51.4975 : ℝ), (-0.1357 : ℝ))] initState).1 =
      ⟨some "Westminster", ["Westminster"]⟩ := by
    rw [runSession_cons]
    have hc : checkGeofences 51.4975 (-0.1357) initState =
        (⟨some "Westminster", ["Westminster"]⟩, ["Westminster"]) := by
      rw [show checkGeofences 51.4975 (-0.1357) initState =
        (⟨some westminsterZone.name, westminsterZone.name :: initState.alertedZones⟩,
          [westminsterZone.name]) by
          simp [checkGeofences, selectZone_westminster_center, initState, westminsterZone]]
      rfl
    simp [hc, runSession_nil]
  exact (c9_state_invariant [((51.4975 : ℝ), (-0.1357 : ℝ))]).2 "Westminster"
    (by rw [hrun]; simp)

/-! Section: absence of coordinate validation. -/

theorem getDistance_lonWrap :
    getDistance 51.4975 359.8643 51.4975 (-0.1357) = 0 := by
  have h1 : ((-0.1357 : ℝ) - 359.8643) * Real.pi / 180 / 2 = -Real.pi := by
    rw [show ((-0.1357 : ℝ) - 359.8643) = -360 by norm_num]
    ring
  simp [getDistance, h1, Real.sin_neg, Real.sin_pi, atan2_zero_one]

theorem checkGeofences_lonWrap :
    checkGeofences 51.4975 359.8643 initState =
      (⟨some "Westminster", ["Westminster"]⟩, ["Westminster"]) := by
  have h0 : getDistance 51.4975 359.8643 (51.4975 : ℝ) (-0.1357) ≤ 1000 := by
    rw [getDistance_lonWrap]; norm_num
  have hsel : selectZone 51.4975 359.8643 GEOFENCE_ZONES = some westminsterZone := by
    simp [GEOFENCE_ZONES, selectZone_cons, westminsterZone, h0]
  simp [checkGeofences, hsel, initState, westminsterZone]

/-- C3 counterexample: the sample `(51.4975, 359.8643)` has its longitude
outside `[-180, 180]`, yet `checkGeofences` does not reject it — starting
from the initial state it mutates the state and even emits an
entered-zone event, refuting both the rejection and the
state-left-unchanged parts of the claim. -/
theorem c3_counterexample :
    (359.8643 : ℝ) > 180 ∧
    (checkGeofences 51.4975 359.8643 initState).1 ≠ initState ∧
    (checkGeofences 51.4975 359.8643 initState).2 ≠ [] := by
  refine ⟨by norm_num, ?_, ?_⟩
  · rw [checkGeofences_lonWrap]
    simp [initState]
  · rw [checkGeofences_lonWrap]
    simp

/-- C3 amended: the engine performs no coordinate validation at all; an
out-of-range sample flows through the ordinary evaluation path, so it can
change the state and fire an alert (here the wrapped longitude
`359.8643 = -0.1357 + 360` puts the sample at distance 0 from the
Westminster center). -/
theorem c3_no_validation :
    (359.8643 : ℝ) > 180 ∧
    checkGeofences 51.4975 359.8643 initState =
      (⟨some "Westminster", ["Westminster"]⟩, ["Westminster"]) :=
  ⟨by norm_num, checkGeofences_lonWrap⟩

/-! Section: deduplication lemmas. -/

theorem dedupeSeen_fresh :
    ∀ (xs : List CrimeData) (seen : List String),
      ∀ c ∈ dedupeSeen xs seen, c.id ∉ seen := by
  intro xs
  induction xs with
  | nil => intro seen c hc; simp [dedupeSeen] at hc
  | cons w ws ih =>
    intro seen c hc
    by_cases hw : w.id ∈ seen
    · rw [dedupeSeen, if_pos hw] at hc
      exact ih seen c hc
    · rw [dedupeSeen, if_neg hw] at hc
      rcases List.mem_cons.mp hc with rfl | hc
      · exact hw
      · intro hs
        exact ih (w.id :: seen) c hc (List.mem_cons_of_mem w.id hs)

theorem dedupeSeen_ids_nodup :
    ∀ (xs : List CrimeData) (seen : List String),
      ((dedupeSeen xs seen).map CrimeData.id).Nodup := by
  intro xs
  induction xs with
  | nil => intro seen; simp [dedupeSeen]
  | cons w ws ih =>
    intro seen
    by_cases hw : w.id ∈ seen
    · rw [dedupeSeen, if_pos hw]; exact ih seen
    · rw [dedupeSeen, if_neg hw]
      refine List.Nodup.cons ?_ (ih (w.id :: seen))
      intro hmem
      obtain ⟨c, hc, hcid⟩ := List.mem_map.mp hmem
      exact dedupeSeen_fresh ws (w.id :: seen) c hc (by rw [hcid]; simp)

theorem dedupeSeen_sublist :
    ∀ (xs : List CrimeData) (seen : List String), (dedupeSeen xs seen).Sublist xs := by
  intro xs
  induction xs with
  | nil => intro seen; simp [dedupeSeen]
  | cons w ws ih =>
    intro seen
    by_cases hw : w.id ∈ seen
    · rw [dedupeSeen, if_pos hw]
      exact (ih seen).cons w
    · rw [dedupeSeen, if_neg hw]
      exact (ih (w.id :: seen)).cons₂ w

theorem dedupeSeen_find :
    ∀ (xs : List CrimeData) (seen : List String) (c : CrimeData),
      c ∈ dedupeSeen xs seen → xs.find? (fun x => x.id == c.id) = some c := by
  intro xs
  induction xs with
  | nil => intro seen c hc; simp [dedupeSeen] at hc
  | cons w ws ih =>
    intro seen c hc
    by_cases hw : w.id ∈ seen
    · rw [dedupeSeen, if_pos hw] at hc
      have hne : (w.id == c.id) = false := by
        have := dedupeSeen_fresh ws seen c hc
        simp only [beq_eq_false_iff_ne, ne_eq]
        intro he
        exact this (he ▸ hw)
      rw [List.find?_cons_of_neg _ (by simp [hne]), ih seen c hc]
    · rw [dedupeSeen, if_neg hw] at hc
      rcases List.mem_cons.mp hc with rfl | hc
      · rw [List.find?_cons_of_pos _ (by simp)]
      · have hfresh := dedupeSeen_fresh ws (w.id :: seen) c hc
        have hne : (w.id == c.id) = false := by
          simp only [beq_eq_false_iff_ne, ne_eq]
          intro he
          exact hfresh (by rw [← he]; simp)
        rw [List.find?_cons_of_neg _ (by simp [hne]), ih (w.id :: seen) c hc]

theorem dedupeSeen_covers :
    ∀ (xs : List CrimeData) (seen : List String) (c : CrimeData),
      c ∈ xs → c.id ∉ seen → ∃ d ∈ dedupeSeen xs seen, d.id = c.id := by
  intro xs
  induction xs with
  | nil => intro seen c hc; simp at hc
  | cons w ws ih =>
    intro seen c hc hcs
    rcases List.mem_cons.mp hc with rfl | hc
    · rw [dedupeSeen, if_neg hcs]
      exact ⟨c, by simp, rfl⟩
    · by_cases hw : w.id ∈ seen
      · rw [dedupeSeen, if_pos hw]
        exact ih seen c hc hcs
      · rw [dedupeSeen, if_neg hw]
        by_cases hcw : c.id = w.id
        · exact ⟨w, by simp, hcw.symm⟩
        · obtain ⟨d, hd, hdid⟩ := ih (w.id :: seen) c hc (by
            intro hmem
            rcases List.mem_cons.mp hmem with h | h
            · exact hcw h
            · exact hcs h)
          exact ⟨d, List.mem_cons_of_mem w hd, hdid⟩

/-- C4: deduplication keeps, for each id, exactly the first record of the
input sequence bearing it, drops all later occurrences (the output is a
subsequence with pairwise-distinct ids covering every input id), and the
concrete two 10-record batches sharing 3 ids normalize to 17 entries. -/
theorem c4_dedupe_first_occurrence :
    (∀ crimes : List CrimeData,
      ((fetchCrimeDataForArea crimes).map CrimeData.id).Nodup ∧
      (fetchCrimeDataForArea crimes).Sublist crimes ∧
      (∀ c ∈ fetchCrimeDataForArea crimes,
        crimes.find? (fun x => x.id == c.id) = some c) ∧
      (∀ c ∈ crimes, ∃ d ∈ fetchCrimeDataForArea crimes, d.id = c.id)) ∧
    (fetchCrimeDataForArea (batchA ++ batchB)).length = 17 ∧
    ((fetchCrimeDataForArea (batchA ++ batchB)).map CrimeData.id).Nodup := by
  refine ⟨?_, by decide, by decide⟩
  intro crimes
  exact ⟨dedupeSeen_ids_nodup crimes [], dedupeSeen_sublist crimes [],
    fun c hc => dedupeSeen_find crimes [] c hc,
    fun c hc => dedupeSeen_covers crimes [] c hc (by simp)⟩

/-- Witness for C4 on a concrete duplicated batch: the kept entry is the
first occurrence, and the duplicated id is covered. -/
theorem c4_dedupe_first_occurrence_witness :
    ([mkCrime "x" "robbery", mkCrime "x" "burglary"].find?
      (fun r => r.id == (mkCrime "x" "robbery").id) = some (mkCrime "x" "robbery")) ∧
    (∃ d ∈ fetchCrimeDataForArea [mkCrime "x" "robbery", mkCrime "x" "burglary"],
      d.id = (mkCrime "x" "burglary").id) :=
  ⟨(c4_dedupe_first_occurrence.1 _).2.2.1 (mkCrime "x" "robbery") (by decide),
   (c4_dedupe_first_occurrence.1 _).2.2.2 (mkCrime "x" "burglary") (by decide)⟩

/-! Section: per-record transformation. -/

/-- C10: the mapping `data.map` in `fetchCrimeData` is one-to-one — every input
record yields exactly one output record (same length, all transformed
records present, coordinates exactly the `parseFloat` results) — and a
record with non-numeric latitude text yields an entry whose latitude is
`NaN` (`none`) rather than being removed. -/
theorem c10_transform_keeps_every_record :
    (∀ data : List PoliceCrime,
      (fetchCrimeData data).length = data.length ∧
      ∀ c ∈ data, transformCrime c ∈ fetchCrimeData data ∧
        (transformCrime c).lat = jsParseFloat c.location.latitude ∧
        (transformCrime c).lng = jsParseFloat c.location.longitude) ∧
    jsParseFloat badLatRecord.location.latitude = none ∧
    (transformCrime badLatRecord).lat = none := by
  refine ⟨?_, by decide, by decide⟩
  intro data
  refine ⟨List.length_map data transformCrime, ?_⟩
  intro c hc
  exact ⟨List.mem_map_of_mem transformCrime hc, rfl, rfl⟩

/-- Witness for C10 on the concrete 5-record batch containing
`badLatRecord`. -/
theorem c10_transform_keeps_every_record_witness :
    transformCrime badLatRecord ∈ fetchCrimeData fiveRecordBatch ∧
    (transformCrime badLatRecord).lat = jsParseFloat badLatRecord.location.latitude ∧
    (transformCrime badLatRecord).lng = jsParseFloat badLatRecord.location.longitude :=
  (c10_transform_keeps_every_record.1 fiveRecordBatch).2 badLatRecord (by decide)

/-- C5 counterexample: the batch of 5 raw records of which one has a
non-numeric latitude normalizes to 5 entries, not 4 — the malformed record
is not dropped and nothing counts it as skipped. -/
theorem c5_counterexample : (fetchCrimeData fiveRecordBatch).length ≠ 4 := by decide

/-- C5 amended: a record whose latitude or longitude fails to parse is
kept in the output with that coordinate `NaN` (`none`), so the 5-record
batch with one bad latitude yields 5 entries, the bad record among them. -/
theorem c5_malformed_records_kept :
    (fetchCrimeData fiveRecordBatch).length = 5 ∧
    (fetchCrimeData fiveRecordBatch).map CrimeData.id = ["1", "2", "3", "4", "5"] ∧
    (fetchCrimeData fiveRecordBatch).map (fun c => c.lat.isSome) =
      [true, true, false, true, true] := by decide

/-- C7 counterexample: two records lacking both identifiers but differing
in category, location and period receive the *same* derived id (the
string `"undefined"`), so the derived id is not a synthetic id computed
from (category, location, period). -/
theorem c7_counterexample :
    noIdRecord1.persistent_id = none ∧ noIdRecord1.id = none ∧
    noIdRecord2.persistent_id = none ∧ noIdRecord2.id = none ∧
    noIdRecord1.category ≠ noIdRecord2.category ∧
    noIdRecord1.location.latitude ≠ noIdRecord2.location.latitude ∧
    noIdRecord1.month ≠ noIdRecord2.month ∧
    (transformCrime noIdRecord1).id = (transformCrime noIdRecord2).id ∧
    (transformCrime noIdRecord1).id = "undefined" := by decide

/-- C7 amended: the derived id is the persistent identifier when present
and non-empty, else the numeric id converted to a string; a record lacking
both gets the constant string `"undefined"` (the JavaScript rendering of a
missing field), not an id derived from (category, location, period). -/
theorem c7_derived_id :
    ∀ c : PoliceCrime,
      (∀ s, c.persistent_id = some s → s ≠ "" → (transformCrime c).id = s) ∧
      ((c.persistent_id = none ∨ c.persistent_id = some "") →
        ∀ n, c.id = some n → (transformCrime c).id = toString n) ∧
      ((c.persistent_id = none ∨ c.persistent_id = some "") →
        c.id = none → (transformCrime c).id = "undefined") := by
  intro c
  refine ⟨?_, ?_, ?_⟩
  · intro s hs hne
    simp [transformCrime, jsOrString, hs, hne]
  · rintro (hp | hp) n hn <;>
      simp [transformCrime, jsOrString, jsNumToString, hp, hn]
  · rintro (hp | hp) hn <;>
      simp [transformCrime, jsOrString, jsNumToString, hp, hn]

/-- Witness for C7 on the three concrete identifier shapes. -/
theorem c7_derived_id_witness :
    (transformCrime persistentIdRecord).id = "uuid-1" ∧
    (transformCrime badLatRecord).id = toString (3 : ℤ) ∧
    (transformCrime noIdRecord1).id = "undefined" :=
  ⟨(c7_derived_id persistentIdRecord).1 "uuid-1" rfl (by decide),
   (c7_derived_id badLatRecord).2.1 (Or.inl rfl) 3 rfl,
   (c7_derived_id noIdRecord1).2.2 (Or.inl rfl) rfl⟩

/-! Section: statistics lemmas. -/

theorem foldl_incidentStep (docs : List Incident) (acc : ℕ × ℕ × ℕ) :
    docs.foldl incidentStep acc =
      (acc.1 + docs.countP (fun d => d.type == "theft"),
       acc.2.1 + docs.countP (fun d => d.type == "suspicious"),
       acc.2.2 + docs.countP (fun d => d.type == "safe")) := by
  induction docs generalizing acc with
  | nil => simp
  | cons d ds ih =>
    rw [List.foldl_cons, ih]
    by_cases h1 : d.type = "theft"
    · simp [incidentStep, List.countP_cons, h1]
      omega
    · by_cases h2 : d.type = "suspicious"
      · simp [incidentStep, List.countP_cons, h1, h2]
        omega
      · by_cases h3 : d.type = "safe"
        · simp [incidentStep, List.countP_cons, h1, h2, h3]
          omega
        · simp [incidentStep, List.countP_cons, h1, h2, h3]

theorem incidentStats_counts (docs : List Incident) :
    incidentStats docs =
      ⟨docs.length,
       docs.countP (fun d => d.type == "theft"),
       docs.countP (fun d => d.type == "suspicious"),
       docs.countP (fun d => d.type == "safe")⟩ := by
  simp [incidentStats, foldl_incidentStep]

theorem incident_counts_le (docs : List Incident) :
    docs.countP (fun d => d.type == "theft") +
      docs.countP (fun d => d.type == "suspicious") +
      docs.countP (fun d => d.type == "safe") ≤ docs.length := by
  induction docs with
  | nil => simp
  | cons d ds ih =>
    simp only [List.countP_cons, List.length_cons]
    by_cases h1 : d.type = "theft"
    · simp [h1]; omega
    · by_cases h2 : d.type = "suspicious"
      · simp [h1, h2]; omega
      · by_cases h3 : d.type = "safe"
        · simp [h1, h2, h3]; omega
        · simp [h1, h2, h3]; omega

theorem incident_counts_eq (docs : List Incident)
    (h : ∀ d ∈ docs, d.type = "theft" ∨ d.type = "suspicious" ∨ d.type = "safe") :
    docs.countP (fun d => d.type == "theft") +
      docs.countP (fun d => d.type == "suspicious") +
      docs.countP (fun d => d.type == "safe") = docs.length := by
  induction docs with
  | nil => simp
  | cons d ds ih =>
    have hd := h d (by simp)
    have hds := ih (fun x hx => h x (List.mem_cons_of_mem d hx))
    simp only [List.countP_cons, List.length_cons]
    rcases hd with h1 | h2 | h3
    · simp [h1]; omega
    · have h1 : d.type ≠ "theft" := by rw [h2]; decide
      simp [h1, h2]; omega
    · have h1 : d.type ≠ "theft" := by rw [h3]; decide
      have h2 : d.type ≠ "suspicious" := by rw [h3]; decide
      simp [h1, h2, h3]; omega

theorem police_counts_le (crimes : List CrimeData) :
    crimes.countP (fun c => c.category == "theft-from-the-person") +
      crimes.countP (fun c => c.category == "robbery") +
      crimes.countP (fun c => c.category == "other-theft") ≤ crimes.length := by
  induction crimes with
  | nil => simp
  | cons c cs ih =>
    simp only [List.countP_cons, List.length_cons]
    by_cases h1 : c.category = "theft-from-the-person"
    · simp [h1]; omega
    · by_cases h2 : c.category = "robbery"
      · simp [h1, h2]; omega
      · by_cases h3 : c.category = "other-theft"
        · simp [h1, h2, h3]; omega
        · simp [h1, h2, h3]; omega

theorem police_counts_eq (crimes : List CrimeData)
    (h : ∀ c ∈ crimes, c.category = "theft-from-the-person" ∨ c.category = "robbery" ∨
      c.category = "other-theft") :
    crimes.countP (fun c => c.category == "theft-from-the-person") +
      crimes.countP (fun c => c.category == "robbery") +
      crimes.countP (fun c => c.category == "other-theft") = crimes.length := by
  induction crimes with
  | nil => simp
  | cons c cs ih =>
    have hc := h c (by simp)
    have hcs := ih (fun x hx => h x (List.mem_cons_of_mem c hx))
    simp only [List.countP_cons, List.length_cons]
    rcases hc with h1 | h2 | h3
    · simp [h1]; omega
    · have h1 : c.category ≠ "theft-from-the-person" := by rw [h2]; decide
      simp [h1, h2]; omega
    · have h1 : c.category ≠ "theft-from-the-person" := by rw [h3]; decide
      have h2 : c.category ≠ "robbery" := by rw [h3]; decide
      simp [h1, h2, h3]; omega

theorem incident_counts_lt (docs : List Incident)
    (h : ∃ d ∈ docs, ¬(d.type = "theft" ∨ d.type = "suspicious" ∨ d.type = "safe")) :
    docs.countP (fun d => d.type == "theft") +
      docs.countP (fun d => d.type == "suspicious") +
      docs.countP (fun d => d.type == "safe") < docs.length := by
  induction docs with
  | nil => simp at h
  | cons d ds ih =>
    simp only [List.countP_cons, List.length_cons]
    by_cases hd : d.type = "theft" ∨ d.type = "suspicious" ∨ d.type = "safe"
    · obtain ⟨w, hw, hwn⟩ := h
      rcases List.mem_cons.mp hw with rfl | hw
      · exact absurd hd hwn
      · have hlt := ih ⟨w, hw, hwn⟩
        rcases hd with h1 | h2 | h3
        · simp [h1]; omega
        · have h1 : d.type ≠ "theft" := by rw [h2]; decide
          simp [h1, h2]; omega
        · have h1 : d.type ≠ "theft" := by rw [h3]; decide
          have h2 : d.type ≠ "suspicious" := by rw [h3]; decide
          simp [h1, h2, h3]; omega
    · push_neg at hd
      obtain ⟨h1, h2, h3⟩ := hd
      have hle := incident_counts_le ds
      simp [h1, h2, h3]; omega

theorem police_counts_lt (crimes : List CrimeData)
    (h : ∃ c ∈ crimes, ¬(c.category = "theft-from-the-person" ∨ c.category = "robbery" ∨
      c.category = "other-theft")) :
    crimes.countP (fun c => c.category == "theft-from-the-person") +
      crimes.countP (fun c => c.category == "robbery") +
      crimes.countP (fun c => c.category == "other-theft") < crimes.length := by
  induction crimes with
  | nil => simp at h
  | cons c cs ih =>
    simp only [List.countP_cons, List.length_cons]
    by_cases hc : c.category = "theft-from-the-person" ∨ c.category = "robbery" ∨
      c.category = "other-theft"
    · obtain ⟨w, hw, hwn⟩ := h
      rcases List.mem_cons.mp hw with rfl | hw
      · exact absurd hc hwn
      · have hlt := ih ⟨w, hw, hwn⟩
        rcases hc with h1 | h2 | h3
        · simp [h1]; omega
        · have h1 : c.category ≠ "theft-from-the-person" := by rw [h2]; decide
          simp [h1, h2]; omega
        · have h1 : c.category ≠ "theft-from-the-person" := by rw [h3]; decide
          have h2 : c.category ≠ "robbery" := by rw [h3]; decide
          simp [h1, h2, h3]; omega
    · push_neg at hc
      obtain ⟨h1, h2, h3⟩ := hc
      have hle := police_counts_le cs
      simp [h1, h2, h3]; omega

/-- C6 counterexample: a single report of type `"vandalism"` gives total 1
while the three per-category counts sum to 0 — the per-category counts do
not sum to the total. -/
theorem c6_counterexample :
    (incidentStats vandalismOnly).total = 1 ∧
    (incidentStats vandalismOnly).theft + (incidentStats vandalismOnly).suspicious +
      (incidentStats vandalismOnly).safe ≠ (incidentStats vandalismOnly).total := by
  decide

/-- C6 amended: both stats computations report `total` equal to the input
length, and their per-category counts sum to *at most* the total, with
equality exactly guaranteed when every record's category is among the
counted ones (theft/suspicious/safe for user reports;
theft-from-the-person/robbery/other-theft for police records). -/
theorem c6_stats_totals :
    (∀ docs : List Incident,
      (incidentStats docs).total = docs.length ∧
      (incidentStats docs).theft + (incidentStats docs).suspicious +
        (incidentStats docs).safe ≤ (incidentStats docs).total ∧
      ((incidentStats docs).theft + (incidentStats docs).suspicious +
          (incidentStats docs).safe = (incidentStats docs).total ↔
        ∀ d ∈ docs, d.type = "theft" ∨ d.type = "suspicious" ∨ d.type = "safe")) ∧
    (∀ crimes : List CrimeData,
      (policeStatsOf crimes).total = crimes.length ∧
      (policeStatsOf crimes).theftFromPerson + (policeStatsOf crimes).robbery +
        (policeStatsOf crimes).otherTheft ≤ (policeStatsOf crimes).total ∧
      ((policeStatsOf crimes).theftFromPerson + (policeStatsOf crimes).robbery +
          (policeStatsOf crimes).otherTheft = (policeStatsOf crimes).total ↔
        ∀ c ∈ crimes, c.category = "theft-from-the-person" ∨ c.category = "robbery" ∨
          c.category = "other-theft")) := by
  constructor
  · intro docs
    rw [incidentStats_counts]
    refine ⟨rfl, incident_counts_le docs, ?_, fun h => incident_counts_eq docs h⟩
    intro heq
    by_contra hall
    push_neg at hall
    obtain ⟨d, hd, h1, h2, h3⟩ := hall
    exact absurd heq (Nat.ne_of_lt (incident_counts_lt docs ⟨d, hd, by tauto⟩))
  · intro crimes
    refine ⟨rfl, ?_, ?_⟩
    · simp only [policeStatsOf, ← List.countP_eq_length_filter]
      exact police_counts_le crimes
    · simp only [policeStatsOf, ← List.countP_eq_length_filter]
      constructor
      · intro heq
        by_contra hall
        push_neg at hall
        obtain ⟨c, hc, h1, h2, h3⟩ := hall
        exact absurd heq (Nat.ne_of_lt (police_counts_lt crimes ⟨c, hc, by tauto⟩))
      · exact police_counts_eq crimes

/-- Witness for C6: on collections whose categories are all counted, the
per-category sums equal the totals. -/
theorem c6_stats_totals_witness :
    (incidentStats [⟨"a", "theft", 0, 0, "d"⟩]).theft +
      (incidentStats [⟨"a", "theft", 0, 0, "d"⟩]).suspicious +
      (incidentStats [⟨"a", "theft", 0, 0, "d"⟩]).safe =
      (incidentStats [⟨"a", "theft", 0, 0, "d"⟩]).total ∧
    (policeStatsOf [mkCrime "1" "robbery"]).theftFromPerson +
      (policeStatsOf [mkCrime "1" "robbery"]).robbery +
      (policeStatsOf [mkCrime "1" "robbery"]).otherTheft =
      (policeStatsOf [mkCrime "1" "robbery"]).total :=
  ⟨(c6_stats_totals.1 [⟨"a", "theft", 0, 0, "d"⟩]).2.2.mpr (by decide),
   (c6_stats_totals.2 [mkCrime "1" "robbery"]).2.2.mpr (by decide)⟩

end SafePhone
